import Mathlib

/-!
# Verification of the EFD PIS/COFINS credit parser

A shallow embedding, in Lean 4, of the record parser and correlator of the
`EFDPis_Cofins_Lavoratory` repository (files `parser_pis_cofins.py`,
`sped_parser.py` and the numeric helper of `app.py`), together with proofs
of the behavioural properties stated in the specification.

Conventions of the embedding:
* Python strings are Lean `String`s; all character-level operations
  (strip, split, lower, endswith, splitlines) are re-implemented over
  `List Char` so that every definition evaluates by kernel reduction.
* Python `float` values are modelled as exact rationals (`ℚ`); the decimal
  literals that occur in EFD files are represented exactly.
* Python dictionaries are association lists with last-wins insertion
  (new bindings are consed at the front and lookup takes the first hit).
* Emitted rows (Python dicts appended to the record lists) are association
  lists from field name to a `Value` that is either a stored string or a
  stored number, mirroring the mixed content of the Python dicts.
-/

/-- Python whitespace test used by `str.strip` (ASCII portion). -/
def pyIsSpace (c : Char) : Bool :=
  c = ' ' || c = '\t' || c = '\n' || c = '\x0d' || c = '\x0b' || c = '\x0c'

/-- Python `str.strip()` over a character list: drop whitespace at both ends. -/
def pyStripChars (cs : List Char) : List Char :=
  ((cs.dropWhile pyIsSpace).reverse.dropWhile pyIsSpace).reverse

/-- Python `str.strip()` on a Lean string. -/
def pyStrip (s : String) : String :=
  String.mk (pyStripChars s.data)

/-- Python `str.split("|")`: split on every pipe, keeping empty segments,
as Python does (`"".split("|") = [""]`). -/
def splitPipe : List Char → List (List Char)
  | [] => [[]]
  | c :: rest =>
    let r := splitPipe rest
    if c = '|' then [] :: r
    else
      match r with
      | g :: gs => (c :: g) :: gs
      | [] => [[c]]

/-- Models `line.strip().split("|")` as performed on every EFD line. -/
def splitLine (line : String) : List String :=
  (splitPipe (pyStripChars line.data)).map String.mk

/-- ASCII lower-casing, modelling `str.lower()` on file names. -/
def pyLower (s : String) : String :=
  String.mk (s.data.map fun c =>
    if 'A' ≤ c ∧ c ≤ 'Z' then Char.ofNat (c.toNat + 32) else c)

/-- Python `str.endswith(suffix)`. -/
def strEndsWith (s suffix : String) : Bool :=
  s.data.reverse.take suffix.data.length = suffix.data.reverse

/-- Python `str.splitlines()` worker: accumulates the current line (reversed). -/
def splitlinesAux : List Char → List Char → List (List Char)
  | [], acc => if acc = [] then [] else [acc.reverse]
  | '\x0d' :: '\n' :: rest, acc => acc.reverse :: splitlinesAux rest []
  | '\n' :: rest, acc => acc.reverse :: splitlinesAux rest []
  | '\x0d' :: rest, acc => acc.reverse :: splitlinesAux rest []
  | c :: rest, acc => splitlinesAux rest (c :: acc)

/-- Python `str.splitlines()`: split on newline characters, no trailing empty line. -/
def splitlines (s : String) : List String :=
  (splitlinesAux s.data []).map String.mk

/-- Decimal digit test. -/
def isDig (c : Char) : Bool := '0' ≤ c && c ≤ '9'

/-- Value of a digit string (most significant first). -/
def digitsToNat (cs : List Char) : Nat :=
  cs.foldl (fun n c => 10 * n + (c.toNat - '0'.toNat)) 0

/-- The fragment of Python `float(s)` parsing exercised by the program:
optional surrounding whitespace, optional sign, an integer part and an
optional fractional part, at least one digit overall.  Exponent forms,
`inf`/`nan` and underscore separators are not produced by the transforms
of `_to_float`/`to_float` on EFD data and are out of the model (they
parse to `none`, which the callers turn into `0.0` exactly as a Python
`ValueError` would be turned into `0.0`). -/
def parsePyFloat (s : String) : Option ℚ :=
  let cs := pyStripChars s.data
  let sign : ℤ × List Char :=
    match cs with
    | '-' :: rest => (-1, rest)
    | '+' :: rest => (1, rest)
    | _ => (1, cs)
  let ip := sign.2.takeWhile isDig
  let rest := sign.2.dropWhile isDig
  match rest with
  | [] => if ip = [] then none else some (mkRat (sign.1 * digitsToNat ip) 1)
  | '.' :: frac =>
    if frac.all isDig ∧ (ip ≠ [] ∨ frac ≠ []) then
      some (mkRat (sign.1 * (digitsToNat ip * 10 ^ frac.length + digitsToNat frac))
        (10 ^ frac.length))
    else none
  | _ => none

/-- Addition of rationals by explicit cross multiplication.  Values in this
development are built with `mkRat` so that every arithmetic step reduces in
the kernel; `qadd_eq_add` below identifies it with ordinary addition on `ℚ`. -/
def qadd (a b : ℚ) : ℚ := mkRat (a.num * b.den + b.num * a.den) (a.den * b.den)

/-- Models `parser_pis_cofins._to_str`: `str(v).strip()` (inputs are strings here). -/
def _to_str (v : String) : String := pyStrip v

/-- Models `parser_pis_cofins._to_float`: strip, empty gives `0.0`, then remove
every period, turn every comma into a period, and parse; any failure
gives `0.0`. -/
def _to_float (v : String) : ℚ :=
  let s := pyStripChars v.data
  if s = [] then 0
  else
    let s2 := (s.filter (fun c => c ≠ '.')).map fun c => if c = ',' then '.' else c
    (parsePyFloat (String.mk s2)).getD 0

/-- Models `app.to_float`: strip, empty gives `0.0`; when the string has exactly
one comma and at least one period the periods are thousands separators
(removed) and the comma becomes the decimal point; otherwise only commas
are turned into periods; any failure gives `0.0`. -/
def to_float (v : String) : ℚ :=
  let s := pyStripChars v.data
  if s = [] then 0
  else
    let s2 :=
      if s.count ',' = 1 ∧ 1 ≤ s.count '.' then
        (s.filter (fun c => c ≠ '.')).map fun c => if c = ',' then '.' else c
      else
        s.map fun c => if c = ',' then '.' else c
    (parsePyFloat (String.mk s2)).getD 0

/-- Models `parser_pis_cofins._fmt_brl`: render a value with two decimal places
and a comma as decimal point (`f"{x:.2f}".replace(".", ",")`). -/
def _fmt_brl (x : ℚ) : String :=
  let n : ℤ := Int.fdiv (200 * x.num + x.den) (2 * x.den)
  let sign := if n < 0 then "-" else ""
  let m := n.natAbs
  let ip := m / 100
  let fp := m % 100
  sign ++ toString ip ++ "," ++
    (if fp < 10 then "0" ++ toString fp else toString fp)

/-- Models `sped_parser.classificar_cfop`: classify an operation-type code by its
leading digit; empty or unrecognized codes are `"OUTROS"`. -/
def classificar_cfop (cfop : String) : String :=
  if cfop = "" then "OUTROS"
  else
    let s := pyStrip cfop
    if s = "" then "OUTROS"
    else
      match s.data with
      | [] => "OUTROS"
      | c :: _ =>
        if c = '1' ∨ c = '2' ∨ c = '3' then "ENTRADA"
        else if c = '5' ∨ c = '6' ∨ c = '7' then "SAÍDA"
        else "OUTROS"

/-! ## Data model: rows, dictionaries, parser state -/

/-- A value stored in an emitted row: the Python dicts mix raw strings and
floats, so rows carry either. -/
inductive Value where
  | str : String → Value
  | num : ℚ → Value
deriving DecidableEq, Repr

/-- An emitted row: ordered association list from field name to value,
mirroring a Python dict built from literal keys. -/
abbrev Row := List (String × Value)

/-- Python dict as an association list; insertion conses at the front so
that lookup (first hit) realizes last-wins overwrite semantics. -/
abbrev Dict := List (String × String)

/-- Dict update `d[k] = v` (last-wins). -/
def dictInsert (d : Dict) (k v : String) : Dict := (k, v) :: d

/-- Dict access `d.get(k, "")`. -/
def dictGet (d : Dict) (k : String) : String := (List.lookup k d).getD ""

/-- Row access `row[k]` as an optional value. -/
def rowGet (r : Row) (k : String) : Option Value := List.lookup k r

/-- The field names of a row, in insertion order. -/
def rowKeys (r : Row) : List String := r.map Prod.fst

/-- The numeric reading of a row field: stored strings are normalized with
`_to_float`, stored numbers are taken as they are, absent fields read `0`. -/
def fieldFloat (r : Row) (k : String) : ℚ :=
  match rowGet r k with
  | some (Value.str s) => _to_float s
  | some (Value.num q) => q
  | none => 0

/-- Models `_get(p, idx, default="")` of the parser: indexing with `""` fallback. -/
def pGet (p : List String) (idx : Nat) : String := p.getD idx ""

/-- Models `_extract_0000_metadata`: competence `MM/AAAA` and entity name from the
first record `0000` with at least nine fields. -/
def _extract_0000_metadata : List String → String × String
  | [] => ("", "")
  | line :: rest =>
    let p := splitLine line
    if p.length < 9 then _extract_0000_metadata rest
    else if pGet p 1 = "0000" then
      let dtIni := _to_str (pGet p 6)
      let competencia :=
        if dtIni.data.length = 8 then
          String.mk ((dtIni.data.drop 4).take 2) ++ "/" ++ String.mk (dtIni.data.take 4)
        else ""
      (competencia, _to_str (pGet p 7))
    else _extract_0000_metadata rest

/-- Models `_build_maps`: participant directory (0150) and item → NCM map (0200). -/
def _build_maps (lines : List String) : Dict × Dict :=
  lines.foldl
    (fun maps line =>
      let p := splitLine line
      if p.length < 3 then maps
      else
        let reg := pGet p 1
        let maps1 :=
          if reg = "0150" then
            let codPart := _to_str (pGet p 2)
            let nome := if 3 < p.length then _to_str (pGet p 3) else ""
            if codPart ≠ "" then (dictInsert maps.1 codPart nome, maps.2) else maps
          else maps
        if reg = "0200" then
          let codItem := _to_str (pGet p 2)
          let ncm := if 7 < p.length then _to_str (pGet p 7) else ""
          if codItem ≠ "" then (maps1.1, dictInsert maps1.2 codItem ncm) else maps1
        else maps1)
    ([], [])

/-- The mutable state of `parse_efd_piscofins`: one open-parent slot per
record family, the six utility (C500) accumulators, and the four output
record lists. -/
structure ParseState where
  current_c100 : Option (List String)
  current_a100 : Option (List String)
  current_c500 : Option (List String)
  current_d100 : Option (List String)
  current_f100 : Option (List String)
  c500_pis_bc : ℚ
  c500_pis_aliq : ℚ
  c500_pis_val : ℚ
  c500_cof_bc : ℚ
  c500_cof_aliq : ℚ
  c500_cof_val : ℚ
  records_c100 : List Row
  records_out : List Row
  records_ap_pis : List Row
  records_cred_pis : List Row
deriving DecidableEq, Repr

/-- Initial state of the scan. -/
def initState : ParseState :=
  ⟨none, none, none, none, none, 0, 0, 0, 0, 0, 0, [], [], [], []⟩

/-- The Credit Line row built for a C170 item under header `h`. -/
def c170Row (cp em : String) (mp mn : Dict) (h p : List String) : Row :=
  [("COMPETENCIA", Value.str cp), ("EMPRESA", Value.str em),
   ("IND_OPER", Value.str (pGet h 2)), ("COD_PART", Value.str (pGet h 4)),
   ("NOME_PART", Value.str (dictGet mp (pGet h 4))),
   ("MODELO", Value.str (pGet h 5)), ("SIT_DOC", Value.str (pGet h 9)),
   ("NUM_DOC", Value.str (pGet h 8)), ("DT_DOC", Value.str (pGet h 10)),
   ("DT_ENTR", Value.str (pGet h 11)), ("VL_DOC", Value.str (pGet h 12)),
   ("NUM_ITEM", Value.str (pGet p 2)), ("COD_ITEM", Value.str (pGet p 3)),
   ("DESCR_ITEM", Value.str (pGet p 4)),
   ("NCM", Value.str (dictGet mn (pGet p 3))),
   ("CFOP", Value.str (pGet p 11)), ("CST_PIS", Value.str (pGet p 12)),
   ("VL_BC_PIS", Value.str (pGet p 13)), ("ALIQ_PIS", Value.str (pGet p 14)),
   ("VL_PIS", Value.str (pGet p 15)), ("CST_COFINS", Value.str (pGet p 18)),
   ("VL_BC_COFINS", Value.str (pGet p 19)), ("ALIQ_COFINS", Value.str (pGet p 20)),
   ("VL_COFINS", Value.str (pGet p 21))]

/-- C170 branch: only inbound headers (`IND_OPER = "0"`) and only items
with some non-zero base or value produce a Credit Line. -/
def stepC170 (cp em : String) (mp mn : Dict) (st : ParseState) (p : List String) :
    ParseState :=
  match st.current_c100 with
  | none => st
  | some h =>
    if h = [] then st
    else if pGet h 2 ≠ "0" then st
    else if _to_float (pGet p 15) = 0 ∧ _to_float (pGet p 21) = 0 ∧
            _to_float (pGet p 13) = 0 ∧ _to_float (pGet p 19) = 0 then st
    else { st with records_c100 := st.records_c100 ++ [c170Row cp em mp mn h p] }

/-- The service (A100/A170) credit row. -/
def a170Row (cp em : String) (mp : Dict) (h p : List String) : Row :=
  [("COMPETENCIA", Value.str cp), ("EMPRESA", Value.str em),
   ("TIPO", Value.str "A100/A170"), ("DOC", Value.str (pGet h 8)),
   ("DT_DOC", Value.str (pGet h 9)), ("COD_PART", Value.str (pGet h 4)),
   ("NOME_PART", Value.str (dictGet mp (pGet h 4))),
   ("VL_DOC", Value.str (pGet h 11)), ("CFOP", Value.str ""),
   ("CST_PIS", Value.str (pGet p 9)), ("VL_BC_PIS", Value.str (pGet p 10)),
   ("ALIQ_PIS", Value.str (pGet p 11)), ("VL_PIS", Value.str (pGet p 12)),
   ("CST_COFINS", Value.str (pGet p 13)), ("VL_BC_COFINS", Value.str (pGet p 14)),
   ("ALIQ_COFINS", Value.str (pGet p 15)), ("VL_COFINS", Value.str (pGet p 16))]

/-- A170 branch (service taken): emits immediately under an open A100. -/
def stepA170 (cp em : String) (mp : Dict) (st : ParseState) (p : List String) :
    ParseState :=
  match st.current_a100 with
  | none => st
  | some h =>
    if h = [] then st
    else if _to_float (pGet p 12) = 0 ∧ _to_float (pGet p 16) = 0 ∧
            _to_float (pGet p 10) = 0 ∧ _to_float (pGet p 14) = 0 then st
    else { st with records_out := st.records_out ++ [a170Row cp em mp h p] }

/-- The merged utility (C500/C501/C505) credit row, built from the header
and the six accumulators at finalization time. -/
def c500Row (cp em : String) (mp : Dict) (h : List String)
    (pisBc pisAliq pisVal cofBc cofAliq cofVal : ℚ) : Row :=
  [("COMPETENCIA", Value.str cp), ("EMPRESA", Value.str em),
   ("TIPO", Value.str "C500/C501/C505"), ("DOC", Value.str (pGet h 7)),
   ("DT_DOC", Value.str (pGet h 8)), ("COD_PART", Value.str (pGet h 2)),
   ("NOME_PART", Value.str (dictGet mp (pGet h 2))),
   ("VL_DOC", Value.str (pGet h 10)), ("CFOP", Value.str ""),
   ("CST_PIS", Value.str ""), ("VL_BC_PIS", Value.str (_fmt_brl pisBc)),
   ("ALIQ_PIS", Value.str (_fmt_brl pisAliq)), ("VL_PIS", Value.str (_fmt_brl pisVal)),
   ("CST_COFINS", Value.str ""), ("VL_BC_COFINS", Value.str (_fmt_brl cofBc)),
   ("ALIQ_COFINS", Value.str (_fmt_brl cofAliq)), ("VL_COFINS", Value.str (_fmt_brl cofVal))]

/-- Models `finalize_c500`: with no open C500 header this is a no-op; with all four
monetary accumulators at zero the pending context is dropped; otherwise one
merged row is appended.  In either non-trivial case the header slot is
cleared and all six accumulators reset to zero. -/
def finalizeC500 (cp em : String) (mp : Dict) (st : ParseState) : ParseState :=
  match st.current_c500 with
  | none => st
  | some h =>
    if st.c500_pis_bc = 0 ∧ st.c500_pis_val = 0 ∧
       st.c500_cof_bc = 0 ∧ st.c500_cof_val = 0 then
      { st with current_c500 := none,
                c500_pis_bc := 0, c500_pis_aliq := 0, c500_pis_val := 0,
                c500_cof_bc := 0, c500_cof_aliq := 0, c500_cof_val := 0 }
    else
      { st with
          records_out := st.records_out ++
            [c500Row cp em mp h st.c500_pis_bc st.c500_pis_aliq st.c500_pis_val
              st.c500_cof_bc st.c500_cof_aliq st.c500_cof_val],
          current_c500 := none,
          c500_pis_bc := 0, c500_pis_aliq := 0, c500_pis_val := 0,
          c500_cof_bc := 0, c500_cof_aliq := 0, c500_cof_val := 0 }

/-- C501 branch: accumulate the PIS base and value, overwrite the PIS rate. -/
def stepC501 (st : ParseState) (p : List String) : ParseState :=
  match st.current_c500 with
  | none => st
  | some _ =>
    { st with c500_pis_bc := qadd st.c500_pis_bc (_to_float (pGet p 5)),
              c500_pis_aliq := _to_float (pGet p 6),
              c500_pis_val := qadd st.c500_pis_val (_to_float (pGet p 7)) }

/-- C505 branch: accumulate the COFINS base and value, overwrite the rate. -/
def stepC505 (st : ParseState) (p : List String) : ParseState :=
  match st.current_c500 with
  | none => st
  | some _ =>
    { st with c500_cof_bc := qadd st.c500_cof_bc (_to_float (pGet p 5)),
              c500_cof_aliq := _to_float (pGet p 6),
              c500_cof_val := qadd st.c500_cof_val (_to_float (pGet p 7)) }

/-- The freight PIS row (D100/D101): COFINS side stored as zero numbers. -/
def d101Row (cp em : String) (mp : Dict) (h p : List String) : Row :=
  [("COMPETENCIA", Value.str cp), ("EMPRESA", Value.str em),
   ("TIPO", Value.str "D100/D101"), ("DOC", Value.str (pGet h 8)),
   ("DT_DOC", Value.str (pGet h 10)), ("COD_PART", Value.str (pGet h 4)),
   ("NOME_PART", Value.str (dictGet mp (pGet h 4))),
   ("VL_DOC", Value.str (pGet h 12)), ("CFOP", Value.str ""),
   ("CST_PIS", Value.str (pGet p 3)), ("VL_BC_PIS", Value.str (pGet p 4)),
   ("ALIQ_PIS", Value.str (pGet p 5)), ("VL_PIS", Value.str (pGet p 6)),
   ("CST_COFINS", Value.str ""), ("VL_BC_COFINS", Value.num 0),
   ("ALIQ_COFINS", Value.num 0), ("VL_COFINS", Value.num 0)]

/-- D101 branch: emits its own row immediately under an open D100. -/
def stepD101 (cp em : String) (mp : Dict) (st : ParseState) (p : List String) :
    ParseState :=
  match st.current_d100 with
  | none => st
  | some h =>
    if _to_float (pGet p 6) = 0 ∧ _to_float (pGet p 4) = 0 then st
    else { st with records_out := st.records_out ++ [d101Row cp em mp h p] }

/-- The freight COFINS row (D100/D105): PIS side stored as zero numbers. -/
def d105Row (cp em : String) (mp : Dict) (h p : List String) : Row :=
  [("COMPETENCIA", Value.str cp), ("EMPRESA", Value.str em),
   ("TIPO", Value.str "D100/D105"), ("DOC", Value.str (pGet h 8)),
   ("DT_DOC", Value.str (pGet h 10)), ("COD_PART", Value.str (pGet h 4)),
   ("NOME_PART", Value.str (dictGet mp (pGet h 4))),
   ("VL_DOC", Value.str (pGet h 12)), ("CFOP", Value.str ""),
   ("CST_PIS", Value.str ""), ("VL_BC_PIS", Value.num 0),
   ("ALIQ_PIS", Value.num 0), ("VL_PIS", Value.num 0),
   ("CST_COFINS", Value.str (pGet p 3)), ("VL_BC_COFINS", Value.str (pGet p 4)),
   ("ALIQ_COFINS", Value.str (pGet p 5)), ("VL_COFINS", Value.str (pGet p 6))]

/-- D105 branch: emits its own row immediately under an open D100. -/
def stepD105 (cp em : String) (mp : Dict) (st : ParseState) (p : List String) :
    ParseState :=
  match st.current_d100 with
  | none => st
  | some h =>
    if _to_float (pGet p 6) = 0 ∧ _to_float (pGet p 4) = 0 then st
    else { st with records_out := st.records_out ++ [d105Row cp em mp h p] }

/-- The other-document row (F100/F120).  Note: unlike the other four
sub-parsers of this collection it carries no `CFOP` field. -/
def f120Row (cp em : String) (mp : Dict) (h p : List String) : Row :=
  [("COMPETENCIA", Value.str cp), ("EMPRESA", Value.str em),
   ("TIPO", Value.str "F100/F120"), ("DOC", Value.str (pGet h 5)),
   ("DT_DOC", Value.str (pGet h 6)), ("COD_PART", Value.str (pGet h 3)),
   ("NOME_PART", Value.str (dictGet mp (pGet h 3))),
   ("VL_DOC", Value.str (pGet h 7)),
   ("CST_PIS", Value.str (pGet p 8)), ("VL_BC_PIS", Value.str (pGet p 9)),
   ("ALIQ_PIS", Value.str (pGet p 10)), ("VL_PIS", Value.str (pGet p 11)),
   ("CST_COFINS", Value.str (pGet p 12)), ("VL_BC_COFINS", Value.str (pGet p 13)),
   ("ALIQ_COFINS", Value.str (pGet p 14)), ("VL_COFINS", Value.str (pGet p 15))]

/-- F120 branch: emits immediately under an open F100. -/
def stepF120 (cp em : String) (mp : Dict) (st : ParseState) (p : List String) :
    ParseState :=
  match st.current_f100 with
  | none => st
  | some h =>
    if _to_float (pGet p 11) = 0 ∧ _to_float (pGet p 15) = 0 ∧
       _to_float (pGet p 9) = 0 ∧ _to_float (pGet p 13) = 0 then st
    else { st with records_out := st.records_out ++ [f120Row cp em mp h p] }

/-- The period apportionment row (M200), stored as normalized numbers. -/
def m200Row (cp em : String) (p : List String) : Row :=
  [("COMPETENCIA", Value.str cp), ("EMPRESA", Value.str em),
   ("VL_TOT_CONT_NC_PER", Value.num (_to_float (pGet p 2))),
   ("VL_CONT_NC_REC", Value.num (_to_float (pGet p 3))),
   ("VL_TOT_CRED_DESC", Value.num (_to_float (pGet p 4))),
   ("VL_TOT_CONT_REAL", Value.num (_to_float (pGet p 5))),
   ("VL_CONT_NC_REST", Value.num (_to_float (pGet p 6))),
   ("VL_CONT_NC_RET", Value.num (_to_float (pGet p 7))),
   ("VL_CONT_NC_SUSP", Value.num (_to_float (pGet p 8))),
   ("VL_CONT_NC_ADIC", Value.num (_to_float (pGet p 9)))]

/-- M200 branch: unconditional append. -/
def stepM200 (cp em : String) (st : ParseState) (p : List String) : ParseState :=
  { st with records_ap_pis := st.records_ap_pis ++ [m200Row cp em p] }

/-- The credit declaration row (M105), stored as raw strings. -/
def m105Row (cp em : String) (p : List String) : Row :=
  [("COMPETENCIA", Value.str cp), ("EMPRESA", Value.str em),
   ("NAT_BC_CRED", Value.str (pGet p 2)), ("CST", Value.str (pGet p 3)),
   ("VL_BC", Value.str (pGet p 4)), ("ALIQ", Value.str (pGet p 5)),
   ("VL_CRED", Value.str (pGet p 6))]

/-- M105 branch: unconditional append. -/
def stepM105 (cp em : String) (st : ParseState) (p : List String) : ParseState :=
  { st with records_cred_pis := st.records_cred_pis ++ [m105Row cp em p] }

/-- One step of the correlator on the already-split fields of a line:
lines with fewer than three fields are noise; otherwise dispatch on the
record tag exactly as the `if/elif` chain of `parse_efd_piscofins` does. -/
def stepP (cp em : String) (mp mn : Dict) (st : ParseState) (p : List String) :
    ParseState :=
  if p.length < 3 then st
  else
    match pGet p 1 with
    | "C100" => { st with current_c100 := some p }
    | "C170" => stepC170 cp em mp mn st p
    | "A100" => { st with current_a100 := some p }
    | "A170" => stepA170 cp em mp st p
    | "C500" =>
      let st1 := finalizeC500 cp em mp st
      { st1 with current_c500 := some p }
    | "C501" => stepC501 st p
    | "C505" => stepC505 st p
    | "D100" => { st with current_d100 := some p }
    | "D101" => stepD101 cp em mp st p
    | "D105" => stepD105 cp em mp st p
    | "F100" => { st with current_f100 := some p }
    | "F120" => stepF120 cp em mp st p
    | "M200" => stepM200 cp em st p
    | "M105" => stepM105 cp em st p
    | _ => st

/-- One step of the correlator on a raw line. -/
def step (cp em : String) (mp mn : Dict) (st : ParseState) (line : String) :
    ParseState :=
  stepP cp em mp mn st (splitLine line)

/-- Models `parse_efd_piscofins`: extract the metadata, build the reference maps,
scan every line, and finalize any pending C500 context at end of input.
The four record lists of the resulting state are the four output
collections (`df_c100`, `df_outros`, `df_ap_pis`, `df_cred_pis`). -/
def parse_efd_piscofins (lines : List String) : ParseState :=
  let meta := _extract_0000_metadata lines
  let maps := _build_maps lines
  finalizeC500 meta.1 meta.2 maps.1
    (lines.foldl (step meta.1 meta.2 maps.1 maps.2) initState)

/-! ## Line source (`load_efd_from_upload`) -/

/-- An uploaded artifact: its declared name, the total decoding of its bytes
as text (`_decode_bytes` never fails: UTF-8 first, then Latin-1 with
unmappable bytes dropped), and, when the bytes form a valid zip archive,
the archive view as a list of members `(member name, decoded member text)`. -/
structure UploadedFile where
  name : String
  text : String
  zipView : Option (List (String × String))
deriving DecidableEq, Repr

/-- Models `_extract_txt_from_zip`: concatenate, in archive-listing order, the
lines of every member whose lower-cased name ends in `".txt"`. -/
def _extract_txt_from_zip (members : List (String × String)) : List String :=
  members.foldl
    (fun acc m =>
      if strEndsWith (pyLower m.1) ".txt" then acc ++ splitlines m.2 else acc)
    []

/-- Models `load_efd_from_upload`: dispatch on the lower-cased artifact name.
A `.zip` name opens the bytes as an archive (`zipfile` raises `BadZipFile`
when the bytes are not an archive); a `.txt` name decodes the bytes and
splits them into lines; any other name raises
`ValueError` — the single intentional error kind of the loader. -/
def load_efd_from_upload (f : UploadedFile) : Except String (List String) :=
  let name := pyLower f.name
  if strEndsWith name ".zip" then
    match f.zipView with
    | some members => Except.ok (_extract_txt_from_zip members)
    | none => Except.error "BadZipFile"
  else if strEndsWith name ".txt" then
    Except.ok (splitlines f.text)
  else
    Except.error "Arquivo inválido. Envie .txt ou .zip contendo .txt de EFD PIS/COFINS."

/-! ## Concrete inputs and predicates used by the claim theorems -/

/-- The string stored in a row field (empty for absent or numeric fields). -/
def fieldStr (r : Row) (k : String) : String :=
  match rowGet r k with
  | some (Value.str s) => s
  | _ => ""

/-- Input of the end-to-end scenario of C3: opening record with period
09/2025, participant P1, item I1 with NCM 12345678, one inbound invoice
header for P1 and one item record for I1 with PIS value 100,00 and zero
COFINS. -/
def c3Lines : List String :=
  ["|0000|006|0|||20250901|Empresa Teste|x|",
   "|0150|P1|Fornecedor X|",
   "|0200|I1|ITEM TESTE||||12345678|",
   "|C100|0||P1|55|||123|00|01092025|02092025|1000,00|",
   "|C170|1|I1|ITEM TESTE|||||||1102|01|0|0|100,00|||01|0|0|0,00|"]

/-- Input of the freight scenario of C6: one D100 header followed by a
D101 child with non-zero PIS values and a D105 child with non-zero COFINS
values. -/
def c6Lines : List String :=
  ["|D100|0||x|P9|57|00|1|777|x|14022025|x|5947,47|",
   "|D101|x|x|01|100,00|1,65|1,65|",
   "|D105|x|x|01|100,00|7,6|7,60|"]

/-- Input of the C2 counterexample: a single credit-declaration record
(M105) whose base and value fields are all zero. -/
def c2Lines : List String := ["|M105|01|50|0|0|0|"]

/-- Input of the C1 counterexample: an inbound invoice header (direction
indicator `0`) with one item carrying a non-zero PIS value. -/
def c1Lines : List String :=
  ["|C100|0||P1|55|||123|00|01092025|02092025|1000,00|",
   "|C170|1|I1|ITEM TESTE|||||||1102|01|0|0|100,00|||01|0|0|0,00|"]

/-- Input of the C9 counterexample: one service credit row (A100/A170) and
one other-document credit row (F100/F120) in the same output collection. -/
def c9Lines : List String :=
  ["|A100|0||x|P1|||x|1|10,00|x|200,00|",
   "|A170|1|x|x|x|x|x|x|x|01|100,00|1,65|1,65|01|100,00|7,6|7,60|",
   "|F100|0|P1|x|20250901|100|500,00|x|",
   "|F120|x|x|x|x|x|x|x|01|100,00|1,65|1,65|01|100,00|7,6|7,60|"]

/-- The C7 counterexample artifact: a valid zip archive whose only member
is not a `.txt` file. -/
def c7Zip : UploadedFile := ⟨"data.zip", "PK", some [("notes.csv", "abc")]⟩

/-- The concrete open-utility state used by the C10 witness. -/
def c10St : ParseState := { initState with current_c500 := some ["", "C500", "P"] }

/-- The C5 utility header line (the example documented in the source). -/
def c5HeaderLine : String :=
  "|C500|F10372|06|00|3||150918139|14022025|14022025|5947,47|0||98,13|452,01||"

/-- The C5 PIS child (C501) with non-zero base and value. -/
def c5PisLine : String := "|C501|50|5947,47|01|5947,47|1,65|98,13|"

/-- A minimal next header of the given family. -/
def c5NextHeader (t : String) : String := "|" ++ t ++ "|x|x|"

/-- At least one of the four monetary fields of the row reads non-zero. -/
def rowNonZero (r : Row) : Prop :=
  fieldFloat r "VL_BC_PIS" ≠ 0 ∨ fieldFloat r "VL_PIS" ≠ 0 ∨
  fieldFloat r "VL_BC_COFINS" ≠ 0 ∨ fieldFloat r "VL_COFINS" ≠ 0

/-- The row is a merged utility row rendered (to two decimals) from
accumulated values that are not all zero. -/
def utilityRowOk (r : Row) : Prop :=
  ∃ cp em mp hd bc aq vl cbc caq cvl,
    ¬ (bc = 0 ∧ vl = 0 ∧ cbc = 0 ∧ cvl = 0) ∧
    r = c500Row cp em mp hd bc aq vl cbc caq cvl

/-- Input of the C2 witness: one service credit row with non-zero values. -/
def c2wLines : List String :=
  ["|A100|0||x|P1|||x|1|10,00|x|200,00|",
   "|A170|1|x|x|x|x|x|x|x|01|100,00|1,65|1,65|01|100,00|7,6|7,60|"]

/-- The field set of every Credit Line row. -/
def c100Keys : List String :=
  ["COMPETENCIA", "EMPRESA", "IND_OPER", "COD_PART", "NOME_PART", "MODELO",
   "SIT_DOC", "NUM_DOC", "DT_DOC", "DT_ENTR", "VL_DOC", "NUM_ITEM", "COD_ITEM",
   "DESCR_ITEM", "NCM", "CFOP", "CST_PIS", "VL_BC_PIS", "ALIQ_PIS", "VL_PIS",
   "CST_COFINS", "VL_BC_COFINS", "ALIQ_COFINS", "VL_COFINS"]

/-- The field set shared by the service, utility and freight rows of the
Other-Document collection. -/
def outKeys : List String :=
  ["COMPETENCIA", "EMPRESA", "TIPO", "DOC", "DT_DOC", "COD_PART", "NOME_PART",
   "VL_DOC", "CFOP", "CST_PIS", "VL_BC_PIS", "ALIQ_PIS", "VL_PIS",
   "CST_COFINS", "VL_BC_COFINS", "ALIQ_COFINS", "VL_COFINS"]

/-- The field set of other-document (F100/F120) rows: `outKeys` without
the `CFOP` field. -/
def f120Keys : List String :=
  ["COMPETENCIA", "EMPRESA", "TIPO", "DOC", "DT_DOC", "COD_PART", "NOME_PART",
   "VL_DOC", "CST_PIS", "VL_BC_PIS", "ALIQ_PIS", "VL_PIS",
   "CST_COFINS", "VL_BC_COFINS", "ALIQ_COFINS", "VL_COFINS"]

/-- The field set of apportionment (M200) rows. -/
def apKeys : List String :=
  ["COMPETENCIA", "EMPRESA", "VL_TOT_CONT_NC_PER", "VL_CONT_NC_REC",
   "VL_TOT_CRED_DESC", "VL_TOT_CONT_REAL", "VL_CONT_NC_REST", "VL_CONT_NC_RET",
   "VL_CONT_NC_SUSP", "VL_CONT_NC_ADIC"]

/-- The field set of credit-declaration (M105) rows. -/
def credKeys : List String :=
  ["COMPETENCIA", "EMPRESA", "NAT_BC_CRED", "CST", "VL_BC", "ALIQ", "VL_CRED"]

/-! ## Lemmas and claim theorems -/

/-- Cross-multiplication addition agrees with ordinary addition on `ℚ`. -/
theorem qadd_eq_add (a b : ℚ) : qadd a b = a + b := by
  rw [qadd, Rat.mkRat_eq_div]
  have ha : (a.den : ℚ) ≠ 0 := Nat.cast_ne_zero.mpr a.den_nz
  have hb : (b.den : ℚ) ≠ 0 := Nat.cast_ne_zero.mpr b.den_nz
  conv_rhs => rw [← Rat.num_div_den a, ← Rat.num_div_den b, div_add_div _ _ ha hb]
  push_cast
  ring_nf

/-- C3: the end-to-end scenario yields exactly one Credit Line whose period
is `09/2025`, participant name is `Fornecedor X`, tariff classification is
`12345678`, PIS value normalizes to `100.0` and COFINS value to `0.0`. -/
theorem c3_end_to_end :
    (parse_efd_piscofins c3Lines).records_c100.length = 1 ∧
    fieldStr ((parse_efd_piscofins c3Lines).records_c100.getD 0 []) "COMPETENCIA"
      = "09/2025" ∧
    fieldStr ((parse_efd_piscofins c3Lines).records_c100.getD 0 []) "NOME_PART"
      = "Fornecedor X" ∧
    fieldStr ((parse_efd_piscofins c3Lines).records_c100.getD 0 []) "NCM"
      = "12345678" ∧
    fieldFloat ((parse_efd_piscofins c3Lines).records_c100.getD 0 []) "VL_PIS" = 100 ∧
    fieldFloat ((parse_efd_piscofins c3Lines).records_c100.getD 0 []) "VL_COFINS" = 0 := by
  decide

/-- C4, counterexample: the parser's numeric normalizer `_to_float` (cited
by the claim) does not keep the period of `"1.5"` as a decimal point: it
removes every period unconditionally, yielding `15`, not `1.5`. -/
theorem c4_counterexample :
    _to_float "1.5" = 15 ∧ (15 : ℚ) ≠ mkRat 3 2 := by
  decide

/-- C4, amended: both normalizers are total and return `0.0` on empty,
whitespace-only or malformed input; `app.to_float` implements the
conditional rule (exactly one comma and at least one period strips the
periods as thousands separators, otherwise commas become the decimal
point, so `to_float "1.5" = 1.5`); the parser's `_to_float` instead
removes all periods unconditionally and turns commas into the decimal
point, so `_to_float "1.5" = 15.0`. -/
theorem c4_amended :
    _to_float "" = 0 ∧ _to_float "   " = 0 ∧ _to_float "abc" = 0 ∧
    _to_float "1.234,56" = mkRat 123456 100 ∧ _to_float "0,00" = 0 ∧
    _to_float "100,00" = 100 ∧ _to_float "1.5" = 15 ∧
    to_float "" = 0 ∧ to_float "   " = 0 ∧ to_float "abc" = 0 ∧
    to_float "1.234,56" = mkRat 123456 100 ∧ to_float "0,00" = 0 ∧
    to_float "1.5" = mkRat 3 2 ∧ to_float "1,5" = mkRat 3 2 ∧
    to_float "1,2,3" = 0 := by
  decide

/-- C6, counterexample: a freight header whose PIS child (D101) and COFINS
child (D105) both carry non-zero values produces two output rows, one per
child — not the single merged row the claim asserts. -/
theorem c6_counterexample :
    (parse_efd_piscofins c6Lines).records_out.length = 2 := by
  decide

/-- C6, amended: the freight family does not follow the utility merge
pattern: each tax-specific child emits its own row immediately.  With both
children non-zero the header yields two rows: a `D100/D101` row carrying
the PIS fields with the COFINS fields zeroed, and a `D100/D105` row
carrying the COFINS fields with the PIS fields zeroed. -/
theorem c6_amended :
    (parse_efd_piscofins c6Lines).records_out.length = 2 ∧
    fieldStr ((parse_efd_piscofins c6Lines).records_out.getD 0 []) "TIPO"
      = "D100/D101" ∧
    fieldFloat ((parse_efd_piscofins c6Lines).records_out.getD 0 []) "VL_PIS"
      = mkRat 165 100 ∧
    fieldFloat ((parse_efd_piscofins c6Lines).records_out.getD 0 []) "VL_COFINS" = 0 ∧
    fieldFloat ((parse_efd_piscofins c6Lines).records_out.getD 0 []) "VL_BC_COFINS" = 0 ∧
    fieldStr ((parse_efd_piscofins c6Lines).records_out.getD 1 []) "TIPO"
      = "D100/D105" ∧
    fieldFloat ((parse_efd_piscofins c6Lines).records_out.getD 1 []) "VL_COFINS"
      = mkRat 760 100 ∧
    fieldFloat ((parse_efd_piscofins c6Lines).records_out.getD 1 []) "VL_PIS" = 0 ∧
    fieldFloat ((parse_efd_piscofins c6Lines).records_out.getD 1 []) "VL_BC_PIS" = 0 := by
  decide

/-- C2, counterexample: the credit-declaration collection (M105 rows,
`df_cred_pis`) is not covered by the non-zero filter: a row whose base,
rate and credit value all normalize to zero is still emitted, although the
claim exempts only the Period Apportionment (M200) collection. -/
theorem c2_counterexample :
    (parse_efd_piscofins c2Lines).records_cred_pis.length = 1 ∧
    fieldFloat ((parse_efd_piscofins c2Lines).records_cred_pis.getD 0 []) "VL_BC" = 0 ∧
    fieldFloat ((parse_efd_piscofins c2Lines).records_cred_pis.getD 0 []) "ALIQ" = 0 ∧
    fieldFloat ((parse_efd_piscofins c2Lines).records_cred_pis.getD 0 []) "VL_CRED"
      = 0 := by
  decide

/-- C1, counterexample: a Credit Line is emitted although the operation
code of its invoice header — the direction indicator `"0"` that the code
actually gates on — classifies as `"OUTROS"` (Unclassified) under the §4.7
leading-digit classifier, not as Inbound. -/
theorem c1_counterexample :
    (parse_efd_piscofins c1Lines).records_c100.length = 1 ∧
    fieldStr ((parse_efd_piscofins c1Lines).records_c100.getD 0 []) "IND_OPER" = "0" ∧
    classificar_cfop
      (fieldStr ((parse_efd_piscofins c1Lines).records_c100.getD 0 []) "IND_OPER")
      = "OUTROS" := by
  decide

/-- C9, counterexample: two rows of the Other-Document Credit collection do
not share the same field set — the service (A100/A170) row has a `CFOP`
field while the other-document (F100/F120) row lacks it. -/
theorem c9_counterexample :
    (parse_efd_piscofins c9Lines).records_out.length = 2 ∧
    "CFOP" ∈ rowKeys ((parse_efd_piscofins c9Lines).records_out.getD 0 []) ∧
    "CFOP" ∉ rowKeys ((parse_efd_piscofins c9Lines).records_out.getD 1 []) := by
  decide

/-- C7, counterexample: an archive containing no member with the recognized
text extension is not rejected — the loader returns an empty line list
instead of raising the error the claim requires. -/
theorem c7_counterexample :
    load_efd_from_upload c7Zip = Except.ok ([] : List String) := by
  rfl

/-- C7, amended: the loader errors exactly when the lower-cased artifact
name ends in neither `.zip` nor `.txt` (the single intentional
`ValueError`), or when a `.zip`-named artifact is not a valid archive
(`zipfile`'s own `BadZipFile`).  A valid archive — even one with no `.txt`
member — and any `.txt`-named artifact load without error; per-line and
per-field problems never surface. -/
theorem c7_amended (f : UploadedFile) :
    (∃ msg, load_efd_from_upload f = Except.error msg) ↔
      ((strEndsWith (pyLower f.name) ".zip" = false ∧
        strEndsWith (pyLower f.name) ".txt" = false) ∨
       (strEndsWith (pyLower f.name) ".zip" = true ∧ f.zipView = none)) := by
  unfold load_efd_from_upload
  cases hz : strEndsWith (pyLower f.name) ".zip" with
  | true =>
    cases hv : f.zipView with
    | none => simp [hz, hv]
    | some ms => simp [hz, hv]
  | false =>
    cases ht : strEndsWith (pyLower f.name) ".txt" with
    | true => simp [hz, ht]
    | false => simp [hz, ht]

/-- C7, witness: the amended characterization applied to a concrete
artifact with an unrecognized extension. -/
theorem c7_amended_witness :
    ∃ msg, load_efd_from_upload ⟨"a.dat", "", none⟩ = Except.error msg :=
  (c7_amended ⟨"a.dat", "", none⟩).mpr (Or.inl (by decide))

/-- Short lines are noise: the step is the identity. -/
theorem stepP_short (cp em : String) (mp mn : Dict) (st : ParseState)
    (p : List String) (h3 : p.length < 3) :
    stepP cp em mp mn st p = st := by
  unfold stepP
  rw [if_pos h3]

/-- Dispatch of a C170 line. -/
theorem stepP_tag_C170 (cp em : String) (mp mn : Dict) (st : ParseState)
    (p : List String) (h3 : ¬ p.length < 3) (ht : pGet p 1 = "C170") :
    stepP cp em mp mn st p = stepC170 cp em mp mn st p := by
  unfold stepP
  rw [if_neg h3, ht]
  rfl

/-- Dispatch of an A170 line. -/
theorem stepP_tag_A170 (cp em : String) (mp mn : Dict) (st : ParseState)
    (p : List String) (h3 : ¬ p.length < 3) (ht : pGet p 1 = "A170") :
    stepP cp em mp mn st p = stepA170 cp em mp st p := by
  unfold stepP
  rw [if_neg h3, ht]
  rfl

/-- Dispatch of a C500 header line: finalize the pending utility context,
then open the new header. -/
theorem stepP_tag_C500 (cp em : String) (mp mn : Dict) (st : ParseState)
    (p : List String) (h3 : ¬ p.length < 3) (ht : pGet p 1 = "C500") :
    stepP cp em mp mn st p =
      { finalizeC500 cp em mp st with current_c500 := some p } := by
  unfold stepP
  rw [if_neg h3, ht]
  rfl

/-- Dispatch of a C501 line. -/
theorem stepP_tag_C501 (cp em : String) (mp mn : Dict) (st : ParseState)
    (p : List String) (h3 : ¬ p.length < 3) (ht : pGet p 1 = "C501") :
    stepP cp em mp mn st p = stepC501 st p := by
  unfold stepP
  rw [if_neg h3, ht]
  rfl

/-- Dispatch of a C505 line. -/
theorem stepP_tag_C505 (cp em : String) (mp mn : Dict) (st : ParseState)
    (p : List String) (h3 : ¬ p.length < 3) (ht : pGet p 1 = "C505") :
    stepP cp em mp mn st p = stepC505 st p := by
  unfold stepP
  rw [if_neg h3, ht]
  rfl

/-- Dispatch of a D101 line. -/
theorem stepP_tag_D101 (cp em : String) (mp mn : Dict) (st : ParseState)
    (p : List String) (h3 : ¬ p.length < 3) (ht : pGet p 1 = "D101") :
    stepP cp em mp mn st p = stepD101 cp em mp st p := by
  unfold stepP
  rw [if_neg h3, ht]
  rfl

/-- Dispatch of a D105 line. -/
theorem stepP_tag_D105 (cp em : String) (mp mn : Dict) (st : ParseState)
    (p : List String) (h3 : ¬ p.length < 3) (ht : pGet p 1 = "D105") :
    stepP cp em mp mn st p = stepD105 cp em mp st p := by
  unfold stepP
  rw [if_neg h3, ht]
  rfl

/-- Dispatch of an F120 line. -/
theorem stepP_tag_F120 (cp em : String) (mp mn : Dict) (st : ParseState)
    (p : List String) (h3 : ¬ p.length < 3) (ht : pGet p 1 = "F120") :
    stepP cp em mp mn st p = stepF120 cp em mp st p := by
  unfold stepP
  rw [if_neg h3, ht]
  rfl

/-- A C170 item with no open invoice header is skipped. -/
theorem stepC170_none (cp em : String) (mp mn : Dict) (st : ParseState)
    (p : List String) (h : st.current_c100 = none) :
    stepC170 cp em mp mn st p = st := by
  unfold stepC170
  rw [h]

/-- An A170 child with no open service header is skipped. -/
theorem stepA170_none (cp em : String) (mp : Dict) (st : ParseState)
    (p : List String) (h : st.current_a100 = none) :
    stepA170 cp em mp st p = st := by
  unfold stepA170
  rw [h]

/-- A C501 child with no open utility header is skipped. -/
theorem stepC501_none (st : ParseState) (p : List String)
    (h : st.current_c500 = none) : stepC501 st p = st := by
  unfold stepC501
  rw [h]

/-- A C505 child with no open utility header is skipped. -/
theorem stepC505_none (st : ParseState) (p : List String)
    (h : st.current_c500 = none) : stepC505 st p = st := by
  unfold stepC505
  rw [h]

/-- A D101 child with no open freight header is skipped. -/
theorem stepD101_none (cp em : String) (mp : Dict) (st : ParseState)
    (p : List String) (h : st.current_d100 = none) :
    stepD101 cp em mp st p = st := by
  unfold stepD101
  rw [h]

/-- A D105 child with no open freight header is skipped. -/
theorem stepD105_none (cp em : String) (mp : Dict) (st : ParseState)
    (p : List String) (h : st.current_d100 = none) :
    stepD105 cp em mp st p = st := by
  unfold stepD105
  rw [h]

/-- An F120 child with no open other-document header is skipped. -/
theorem stepF120_none (cp em : String) (mp : Dict) (st : ParseState)
    (p : List String) (h : st.current_f100 = none) :
    stepF120 cp em mp st p = st := by
  unfold stepF120
  rw [h]

/-- C8: a child record of any family (item, service, utility PIS/COFINS,
freight PIS/COFINS, other-document) encountered while no parent header of
its family is open is silently skipped — the step returns the state
entirely unchanged: no error, no output row, and the open-parent slots of
every other family are untouched. -/
theorem c8_orphan_children (cp em : String) (mp mn : Dict) (st : ParseState)
    (line : String) :
    (pGet (splitLine line) 1 = "C170" → st.current_c100 = none →
      step cp em mp mn st line = st) ∧
    (pGet (splitLine line) 1 = "A170" → st.current_a100 = none →
      step cp em mp mn st line = st) ∧
    (pGet (splitLine line) 1 = "C501" → st.current_c500 = none →
      step cp em mp mn st line = st) ∧
    (pGet (splitLine line) 1 = "C505" → st.current_c500 = none →
      step cp em mp mn st line = st) ∧
    (pGet (splitLine line) 1 = "D101" → st.current_d100 = none →
      step cp em mp mn st line = st) ∧
    (pGet (splitLine line) 1 = "D105" → st.current_d100 = none →
      step cp em mp mn st line = st) ∧
    (pGet (splitLine line) 1 = "F120" → st.current_f100 = none →
      step cp em mp mn st line = st) := by
  by_cases h3 : (splitLine line).length < 3
  · exact ⟨fun _ _ => stepP_short cp em mp mn st _ h3,
      fun _ _ => stepP_short cp em mp mn st _ h3,
      fun _ _ => stepP_short cp em mp mn st _ h3,
      fun _ _ => stepP_short cp em mp mn st _ h3,
      fun _ _ => stepP_short cp em mp mn st _ h3,
      fun _ _ => stepP_short cp em mp mn st _ h3,
      fun _ _ => stepP_short cp em mp mn st _ h3⟩
  · refine ⟨fun ht hn => ?_, fun ht hn => ?_, fun ht hn => ?_, fun ht hn => ?_,
      fun ht hn => ?_, fun ht hn => ?_, fun ht hn => ?_⟩
    · rw [step, stepP_tag_C170 cp em mp mn st _ h3 ht]
      exact stepC170_none cp em mp mn st _ hn
    · rw [step, stepP_tag_A170 cp em mp mn st _ h3 ht]
      exact stepA170_none cp em mp st _ hn
    · rw [step, stepP_tag_C501 cp em mp mn st _ h3 ht]
      exact stepC501_none st _ hn
    · rw [step, stepP_tag_C505 cp em mp mn st _ h3 ht]
      exact stepC505_none st _ hn
    · rw [step, stepP_tag_D101 cp em mp mn st _ h3 ht]
      exact stepD101_none cp em mp st _ hn
    · rw [step, stepP_tag_D105 cp em mp mn st _ h3 ht]
      exact stepD105_none cp em mp st _ hn
    · rw [step, stepP_tag_F120 cp em mp mn st _ h3 ht]
      exact stepF120_none cp em mp st _ hn

/-- C8, witness: an orphan C170 item at the initial state leaves the state
unchanged. -/
theorem c8_orphan_children_witness :
    step "" "" [] [] initState "|C170|x|x|" = initState :=
  (c8_orphan_children "" "" [] [] initState "|C170|x|x|").1 (by decide) (by decide)

/-- C10: within an open utility (C500) context, every C501 child adds its
base and value into the PIS accumulators while overwriting the PIS rate
with its own; C505 children do the same for the COFINS accumulators; every
actual finalization clears the header slot and resets all six accumulators
to zero; and a non-trivial finalization emits exactly one row whose
monetary fields render the accumulated sums. -/
theorem c10_accumulators :
    (∀ (cp em : String) (mp mn : Dict) (st : ParseState) (p : List String),
      st.current_c500.isSome = true → ¬ p.length < 3 → pGet p 1 = "C501" →
        stepP cp em mp mn st p =
          { st with c500_pis_bc := st.c500_pis_bc + _to_float (pGet p 5),
                    c500_pis_aliq := _to_float (pGet p 6),
                    c500_pis_val := st.c500_pis_val + _to_float (pGet p 7) }) ∧
    (∀ (cp em : String) (mp mn : Dict) (st : ParseState) (p : List String),
      st.current_c500.isSome = true → ¬ p.length < 3 → pGet p 1 = "C505" →
        stepP cp em mp mn st p =
          { st with c500_cof_bc := st.c500_cof_bc + _to_float (pGet p 5),
                    c500_cof_aliq := _to_float (pGet p 6),
                    c500_cof_val := st.c500_cof_val + _to_float (pGet p 7) }) ∧
    (∀ (cp em : String) (mp : Dict) (st : ParseState),
      st.current_c500.isSome = true →
        (finalizeC500 cp em mp st).current_c500 = none ∧
        (finalizeC500 cp em mp st).c500_pis_bc = 0 ∧
        (finalizeC500 cp em mp st).c500_pis_aliq = 0 ∧
        (finalizeC500 cp em mp st).c500_pis_val = 0 ∧
        (finalizeC500 cp em mp st).c500_cof_bc = 0 ∧
        (finalizeC500 cp em mp st).c500_cof_aliq = 0 ∧
        (finalizeC500 cp em mp st).c500_cof_val = 0) ∧
    (∀ (cp em : String) (mp : Dict) (st : ParseState) (hd : List String),
      st.current_c500 = some hd →
      ¬ (st.c500_pis_bc = 0 ∧ st.c500_pis_val = 0 ∧
         st.c500_cof_bc = 0 ∧ st.c500_cof_val = 0) →
        (finalizeC500 cp em mp st).records_out =
          st.records_out ++
            [c500Row cp em mp hd st.c500_pis_bc st.c500_pis_aliq st.c500_pis_val
              st.c500_cof_bc st.c500_cof_aliq st.c500_cof_val]) := by
  refine ⟨?_, ?_, ?_, ?_⟩
  · intro cp em mp mn st p hs h3 ht
    obtain ⟨hv, hc⟩ := Option.isSome_iff_exists.mp hs
    rw [stepP_tag_C501 cp em mp mn st p h3 ht]
    unfold stepC501
    rw [hc]
    simp only [qadd_eq_add]
  · intro cp em mp mn st p hs h3 ht
    obtain ⟨hv, hc⟩ := Option.isSome_iff_exists.mp hs
    rw [stepP_tag_C505 cp em mp mn st p h3 ht]
    unfold stepC505
    rw [hc]
    simp only [qadd_eq_add]
  · intro cp em mp st hs
    obtain ⟨hv, hc⟩ := Option.isSome_iff_exists.mp hs
    simp only [finalizeC500, hc]
    by_cases hz : st.c500_pis_bc = 0 ∧ st.c500_pis_val = 0 ∧
        st.c500_cof_bc = 0 ∧ st.c500_cof_val = 0
    · rw [if_pos hz]
      exact ⟨rfl, rfl, rfl, rfl, rfl, rfl, rfl⟩
    · rw [if_neg hz]
      exact ⟨rfl, rfl, rfl, rfl, rfl, rfl, rfl⟩
  · intro cp em mp st hd hc hnz
    unfold finalizeC500
    rw [hc]
    dsimp only
    rw [if_neg hnz]

/-- C10, witness: the C501 accumulation equation at a concrete state and a
concrete C501 line. -/
theorem c10_accumulators_witness :
    stepP "" "" [] [] c10St (splitLine "|C501|50|5947,47|01|5947,47|1,65|98,13|") =
      { c10St with
          c500_pis_bc := c10St.c500_pis_bc + _to_float "5947,47",
          c500_pis_aliq := _to_float "1,65",
          c500_pis_val := c10St.c500_pis_val + _to_float "98,13" } :=
  c10_accumulators.1 "" "" [] [] c10St
    (splitLine "|C501|50|5947,47|01|5947,47|1,65|98,13|")
    (by decide) (by decide) (by decide)

/-- C5: a utility header followed by its PIS (C501) child only and then a
new header of any family yields, over the whole parse, exactly one merged
Other-Document Credit row, with all COFINS fields zeroed — not two rows
and not zero; the row is not yet emitted right after the child (the
finalization is deferred to the next same-family header or to end of
input, which also suffices on its own); and a utility header with neither
tax child contributes no row at all. -/
theorem c5_utility_finalize (t : String)
    (ht : t ∈ (["C100", "A100", "C500", "D100", "F100"] : List String)) :
    (parse_efd_piscofins [c5HeaderLine, c5PisLine, c5NextHeader t]).records_out.length
      = 1 ∧
    fieldStr ((parse_efd_piscofins
        [c5HeaderLine, c5PisLine, c5NextHeader t]).records_out.getD 0 []) "TIPO"
      = "C500/C501/C505" ∧
    fieldStr ((parse_efd_piscofins
        [c5HeaderLine, c5PisLine, c5NextHeader t]).records_out.getD 0 []) "VL_BC_PIS"
      = "5947,47" ∧
    fieldStr ((parse_efd_piscofins
        [c5HeaderLine, c5PisLine, c5NextHeader t]).records_out.getD 0 []) "VL_PIS"
      = "98,13" ∧
    fieldStr ((parse_efd_piscofins
        [c5HeaderLine, c5PisLine, c5NextHeader t]).records_out.getD 0 []) "CST_COFINS"
      = "" ∧
    fieldStr ((parse_efd_piscofins
        [c5HeaderLine, c5PisLine, c5NextHeader t]).records_out.getD 0 []) "VL_BC_COFINS"
      = "0,00" ∧
    fieldStr ((parse_efd_piscofins
        [c5HeaderLine, c5PisLine, c5NextHeader t]).records_out.getD 0 []) "ALIQ_COFINS"
      = "0,00" ∧
    fieldStr ((parse_efd_piscofins
        [c5HeaderLine, c5PisLine, c5NextHeader t]).records_out.getD 0 []) "VL_COFINS"
      = "0,00" ∧
    ([c5HeaderLine, c5PisLine].foldl (step "" "" [] []) initState).records_out = [] ∧
    (parse_efd_piscofins [c5HeaderLine, c5PisLine]).records_out.length = 1 ∧
    (parse_efd_piscofins [c5HeaderLine, c5NextHeader t]).records_out = [] := by
  fin_cases ht <;> decide

/-- C5, witness: the finalize-on-transition property at the service-header
instance. -/
theorem c5_utility_finalize_witness :
    (parse_efd_piscofins
      [c5HeaderLine, c5PisLine, c5NextHeader "A100"]).records_out.length = 1 :=
  (c5_utility_finalize "A100" (by decide)).1

/-- Finalization never touches the Credit Line collection. -/
theorem finalizeC500_c100 (cp em : String) (mp : Dict) (st : ParseState) :
    (finalizeC500 cp em mp st).records_c100 = st.records_c100 := by
  unfold finalizeC500
  split
  · rfl
  · split
    · rfl
    · rfl

/-- Finalization never touches the apportionment collection. -/
theorem finalizeC500_ap (cp em : String) (mp : Dict) (st : ParseState) :
    (finalizeC500 cp em mp st).records_ap_pis = st.records_ap_pis := by
  unfold finalizeC500
  split
  · rfl
  · split
    · rfl
    · rfl

/-- Finalization never touches the credit-declaration collection. -/
theorem finalizeC500_cred (cp em : String) (mp : Dict) (st : ParseState) :
    (finalizeC500 cp em mp st).records_cred_pis = st.records_cred_pis := by
  unfold finalizeC500
  split
  · rfl
  · split
    · rfl
    · rfl

/-- Finalization either leaves the Other-Document collection unchanged or
appends exactly one utility row rendered from accumulators that are not
all zero. -/
theorem finalizeC500_out_cases (cp em : String) (mp : Dict) (st : ParseState) :
    (finalizeC500 cp em mp st).records_out = st.records_out ∨
    (∃ hd, st.current_c500 = some hd ∧
      ¬ (st.c500_pis_bc = 0 ∧ st.c500_pis_val = 0 ∧
         st.c500_cof_bc = 0 ∧ st.c500_cof_val = 0) ∧
      (finalizeC500 cp em mp st).records_out =
        st.records_out ++
          [c500Row cp em mp hd st.c500_pis_bc st.c500_pis_aliq st.c500_pis_val
            st.c500_cof_bc st.c500_cof_aliq st.c500_cof_val]) := by
  rcases hc : st.current_c500 with _ | hd
  · left
    unfold finalizeC500
    rw [hc]
  · by_cases hz : st.c500_pis_bc = 0 ∧ st.c500_pis_val = 0 ∧
        st.c500_cof_bc = 0 ∧ st.c500_cof_val = 0
    · left
      unfold finalizeC500
      rw [hc]
      dsimp only
      rw [if_pos hz]
    · right
      refine ⟨hd, rfl, hz, ?_⟩
      unfold finalizeC500
      rw [hc]
      dsimp only
      rw [if_neg hz]

/-- The C170 branch appends to the Credit Line collection only under an
open non-empty inbound header and a non-zero guard. -/
theorem stepC170_c100_cases (cp em : String) (mp mn : Dict) (st : ParseState)
    (p : List String) :
    (stepC170 cp em mp mn st p).records_c100 = st.records_c100 ∨
    (∃ h, st.current_c100 = some h ∧ pGet h 2 = "0" ∧
      ¬ (_to_float (pGet p 15) = 0 ∧ _to_float (pGet p 21) = 0 ∧
         _to_float (pGet p 13) = 0 ∧ _to_float (pGet p 19) = 0) ∧
      (stepC170 cp em mp mn st p).records_c100 =
        st.records_c100 ++ [c170Row cp em mp mn h p]) := by
  rcases hc : st.current_c100 with _ | h
  · left
    unfold stepC170
    rw [hc]
  · unfold stepC170
    rw [hc]
    dsimp only
    by_cases he : h = []
    · left
      rw [if_pos he]
    · rw [if_neg he]
      by_cases hi : pGet h 2 ≠ "0"
      · left
        rw [if_pos hi]
      · rw [if_neg hi]
        by_cases hz : _to_float (pGet p 15) = 0 ∧ _to_float (pGet p 21) = 0 ∧
            _to_float (pGet p 13) = 0 ∧ _to_float (pGet p 19) = 0
        · left
          rw [if_pos hz]
        · right
          refine ⟨h, rfl, not_ne_iff.mp hi, hz, ?_⟩
          rw [if_neg hz]

/-- The C170 branch never touches the other three collections. -/
theorem stepC170_other (cp em : String) (mp mn : Dict) (st : ParseState)
    (p : List String) :
    (stepC170 cp em mp mn st p).records_out = st.records_out ∧
    (stepC170 cp em mp mn st p).records_ap_pis = st.records_ap_pis ∧
    (stepC170 cp em mp mn st p).records_cred_pis = st.records_cred_pis := by
  unfold stepC170
  split
  · exact ⟨rfl, rfl, rfl⟩
  split
  · exact ⟨rfl, rfl, rfl⟩
  split
  · exact ⟨rfl, rfl, rfl⟩
  split
  · exact ⟨rfl, rfl, rfl⟩
  · exact ⟨rfl, rfl, rfl⟩

/-- The A170 branch appends to the Other-Document collection only under an
open non-empty service header and a non-zero guard. -/
theorem stepA170_out_cases (cp em : String) (mp : Dict) (st : ParseState)
    (p : List String) :
    (stepA170 cp em mp st p).records_out = st.records_out ∨
    (∃ h, st.current_a100 = some h ∧
      ¬ (_to_float (pGet p 12) = 0 ∧ _to_float (pGet p 16) = 0 ∧
         _to_float (pGet p 10) = 0 ∧ _to_float (pGet p 14) = 0) ∧
      (stepA170 cp em mp st p).records_out =
        st.records_out ++ [a170Row cp em mp h p]) := by
  rcases hc : st.current_a100 with _ | h
  · left
    unfold stepA170
    rw [hc]
  · unfold stepA170
    rw [hc]
    dsimp only
    by_cases he : h = []
    · left
      rw [if_pos he]
    · rw [if_neg he]
      by_cases hz : _to_float (pGet p 12) = 0 ∧ _to_float (pGet p 16) = 0 ∧
          _to_float (pGet p 10) = 0 ∧ _to_float (pGet p 14) = 0
      · left
        rw [if_pos hz]
      · right
        refine ⟨h, rfl, hz, ?_⟩
        rw [if_neg hz]

/-- The A170 branch never touches the other three collections. -/
theorem stepA170_other (cp em : String) (mp : Dict) (st : ParseState)
    (p : List String) :
    (stepA170 cp em mp st p).records_c100 = st.records_c100 ∧
    (stepA170 cp em mp st p).records_ap_pis = st.records_ap_pis ∧
    (stepA170 cp em mp st p).records_cred_pis = st.records_cred_pis := by
  unfold stepA170
  split
  · exact ⟨rfl, rfl, rfl⟩
  split
  · exact ⟨rfl, rfl, rfl⟩
  split
  · exact ⟨rfl, rfl, rfl⟩
  · exact ⟨rfl, rfl, rfl⟩

/-- The C501 branch only updates accumulators. -/
theorem stepC501_records (st : ParseState) (p : List String) :
    (stepC501 st p).records_c100 = st.records_c100 ∧
    (stepC501 st p).records_out = st.records_out ∧
    (stepC501 st p).records_ap_pis = st.records_ap_pis ∧
    (stepC501 st p).records_cred_pis = st.records_cred_pis := by
  unfold stepC501
  split
  · exact ⟨rfl, rfl, rfl, rfl⟩
  · exact ⟨rfl, rfl, rfl, rfl⟩

/-- The C505 branch only updates accumulators. -/
theorem stepC505_records (st : ParseState) (p : List String) :
    (stepC505 st p).records_c100 = st.records_c100 ∧
    (stepC505 st p).records_out = st.records_out ∧
    (stepC505 st p).records_ap_pis = st.records_ap_pis ∧
    (stepC505 st p).records_cred_pis = st.records_cred_pis := by
  unfold stepC505
  split
  · exact ⟨rfl, rfl, rfl, rfl⟩
  · exact ⟨rfl, rfl, rfl, rfl⟩

/-- The D101 branch appends to the Other-Document collection only under an
open freight header and a non-zero PIS guard. -/
theorem stepD101_out_cases (cp em : String) (mp : Dict) (st : ParseState)
    (p : List String) :
    (stepD101 cp em mp st p).records_out = st.records_out ∨
    (∃ h, st.current_d100 = some h ∧
      ¬ (_to_float (pGet p 6) = 0 ∧ _to_float (pGet p 4) = 0) ∧
      (stepD101 cp em mp st p).records_out =
        st.records_out ++ [d101Row cp em mp h p]) := by
  rcases hc : st.current_d100 with _ | h
  · left
    unfold stepD101
    rw [hc]
  · unfold stepD101
    rw [hc]
    dsimp only
    by_cases hz : _to_float (pGet p 6) = 0 ∧ _to_float (pGet p 4) = 0
    · left
      rw [if_pos hz]
    · right
      refine ⟨h, rfl, hz, ?_⟩
      rw [if_neg hz]

/-- The D101 branch never touches the other three collections. -/
theorem stepD101_other (cp em : String) (mp : Dict) (st : ParseState)
    (p : List String) :
    (stepD101 cp em mp st p).records_c100 = st.records_c100 ∧
    (stepD101 cp em mp st p).records_ap_pis = st.records_ap_pis ∧
    (stepD101 cp em mp st p).records_cred_pis = st.records_cred_pis := by
  unfold stepD101
  split
  · exact ⟨rfl, rfl, rfl⟩
  split
  · exact ⟨rfl, rfl, rfl⟩
  · exact ⟨rfl, rfl, rfl⟩

/-- The D105 branch appends to the Other-Document collection only under an
open freight header and a non-zero COFINS guard. -/
theorem stepD105_out_cases (cp em : String) (mp : Dict) (st : ParseState)
    (p : List String) :
    (stepD105 cp em mp st p).records_out = st.records_out ∨
    (∃ h, st.current_d100 = some h ∧
      ¬ (_to_float (pGet p 6) = 0 ∧ _to_float (pGet p 4) = 0) ∧
      (stepD105 cp em mp st p).records_out =
        st.records_out ++ [d105Row cp em mp h p]) := by
  rcases hc : st.current_d100 with _ | h
  · left
    unfold stepD105
    rw [hc]
  · unfold stepD105
    rw [hc]
    dsimp only
    by_cases hz : _to_float (pGet p 6) = 0 ∧ _to_float (pGet p 4) = 0
    · left
      rw [if_pos hz]
    · right
      refine ⟨h, rfl, hz, ?_⟩
      rw [if_neg hz]

/-- The D105 branch never touches the other three collections. -/
theorem stepD105_other (cp em : String) (mp : Dict) (st : ParseState)
    (p : List String) :
    (stepD105 cp em mp st p).records_c100 = st.records_c100 ∧
    (stepD105 cp em mp st p).records_ap_pis = st.records_ap_pis ∧
    (stepD105 cp em mp st p).records_cred_pis = st.records_cred_pis := by
  unfold stepD105
  split
  · exact ⟨rfl, rfl, rfl⟩
  split
  · exact ⟨rfl, rfl, rfl⟩
  · exact ⟨rfl, rfl, rfl⟩

/-- The F120 branch appends to the Other-Document collection only under an
open other-document header and a non-zero guard. -/
theorem stepF120_out_cases (cp em : String) (mp : Dict) (st : ParseState)
    (p : List String) :
    (stepF120 cp em mp st p).records_out = st.records_out ∨
    (∃ h, st.current_f100 = some h ∧
      ¬ (_to_float (pGet p 11) = 0 ∧ _to_float (pGet p 15) = 0 ∧
         _to_float (pGet p 9) = 0 ∧ _to_float (pGet p 13) = 0) ∧
      (stepF120 cp em mp st p).records_out =
        st.records_out ++ [f120Row cp em mp h p]) := by
  rcases hc : st.current_f100 with _ | h
  · left
    unfold stepF120
    rw [hc]
  · unfold stepF120
    rw [hc]
    dsimp only
    by_cases hz : _to_float (pGet p 11) = 0 ∧ _to_float (pGet p 15) = 0 ∧
        _to_float (pGet p 9) = 0 ∧ _to_float (pGet p 13) = 0
    · left
      rw [if_pos hz]
    · right
      refine ⟨h, rfl, hz, ?_⟩
      rw [if_neg hz]

/-- The F120 branch never touches the other three collections. -/
theorem stepF120_other (cp em : String) (mp : Dict) (st : ParseState)
    (p : List String) :
    (stepF120 cp em mp st p).records_c100 = st.records_c100 ∧
    (stepF120 cp em mp st p).records_ap_pis = st.records_ap_pis ∧
    (stepF120 cp em mp st p).records_cred_pis = st.records_cred_pis := by
  unfold stepF120
  split
  · exact ⟨rfl, rfl, rfl⟩
  split
  · exact ⟨rfl, rfl, rfl⟩
  · exact ⟨rfl, rfl, rfl⟩

/-- One correlator step either leaves the Credit Line collection unchanged
or appends one C170 row gated by an inbound header and the non-zero guard. -/
theorem stepP_c100_cases (cp em : String) (mp mn : Dict) (st : ParseState)
    (p : List String) :
    (stepP cp em mp mn st p).records_c100 = st.records_c100 ∨
    (∃ h, st.current_c100 = some h ∧ pGet h 2 = "0" ∧
      ¬ (_to_float (pGet p 15) = 0 ∧ _to_float (pGet p 21) = 0 ∧
         _to_float (pGet p 13) = 0 ∧ _to_float (pGet p 19) = 0) ∧
      (stepP cp em mp mn st p).records_c100 =
        st.records_c100 ++ [c170Row cp em mp mn h p]) := by
  by_cases h3 : p.length < 3
  · left
    rw [stepP_short cp em mp mn st p h3]
  · unfold stepP
    rw [if_neg h3]
    split
    · left; rfl
    · exact stepC170_c100_cases cp em mp mn st p
    · left; rfl
    · left; exact (stepA170_other cp em mp st p).1
    · left; exact finalizeC500_c100 cp em mp st
    · left; exact (stepC501_records st p).1
    · left; exact (stepC505_records st p).1
    · left; rfl
    · left; exact (stepD101_other cp em mp st p).1
    · left; exact (stepD105_other cp em mp st p).1
    · left; rfl
    · left; exact (stepF120_other cp em mp st p).1
    · left; rfl
    · left; rfl
    · left; rfl

/-- One correlator step either leaves the Other-Document collection
unchanged or appends exactly one of the five guarded row kinds. -/
theorem stepP_out_cases (cp em : String) (mp mn : Dict) (st : ParseState)
    (p : List String) :
    (stepP cp em mp mn st p).records_out = st.records_out ∨
    (∃ h, st.current_a100 = some h ∧
      ¬ (_to_float (pGet p 12) = 0 ∧ _to_float (pGet p 16) = 0 ∧
         _to_float (pGet p 10) = 0 ∧ _to_float (pGet p 14) = 0) ∧
      (stepP cp em mp mn st p).records_out =
        st.records_out ++ [a170Row cp em mp h p]) ∨
    (∃ hd, st.current_c500 = some hd ∧
      ¬ (st.c500_pis_bc = 0 ∧ st.c500_pis_val = 0 ∧
         st.c500_cof_bc = 0 ∧ st.c500_cof_val = 0) ∧
      (stepP cp em mp mn st p).records_out =
        st.records_out ++
          [c500Row cp em mp hd st.c500_pis_bc st.c500_pis_aliq st.c500_pis_val
            st.c500_cof_bc st.c500_cof_aliq st.c500_cof_val]) ∨
    (∃ h, st.current_d100 = some h ∧
      ¬ (_to_float (pGet p 6) = 0 ∧ _to_float (pGet p 4) = 0) ∧
      (stepP cp em mp mn st p).records_out =
        st.records_out ++ [d101Row cp em mp h p]) ∨
    (∃ h, st.current_d100 = some h ∧
      ¬ (_to_float (pGet p 6) = 0 ∧ _to_float (pGet p 4) = 0) ∧
      (stepP cp em mp mn st p).records_out =
        st.records_out ++ [d105Row cp em mp h p]) ∨
    (∃ h, st.current_f100 = some h ∧
      ¬ (_to_float (pGet p 11) = 0 ∧ _to_float (pGet p 15) = 0 ∧
         _to_float (pGet p 9) = 0 ∧ _to_float (pGet p 13) = 0) ∧
      (stepP cp em mp mn st p).records_out =
        st.records_out ++ [f120Row cp em mp h p]) := by
  by_cases h3 : p.length < 3
  · left
    rw [stepP_short cp em mp mn st p h3]
  · unfold stepP
    rw [if_neg h3]
    split
    · left; rfl
    · left; exact (stepC170_other cp em mp mn st p).1
    · left; rfl
    · rcases stepA170_out_cases cp em mp st p with hu | happ
      · left; exact hu
      · exact Or.inr (Or.inl happ)
    · rcases finalizeC500_out_cases cp em mp st with hu | happ
      · left; exact hu
      · exact Or.inr (Or.inr (Or.inl happ))
    · left; exact (stepC501_records st p).2.1
    · left; exact (stepC505_records st p).2.1
    · left; rfl
    · rcases stepD101_out_cases cp em mp st p with hu | happ
      · left; exact hu
      · exact Or.inr (Or.inr (Or.inr (Or.inl happ)))
    · rcases stepD105_out_cases cp em mp st p with hu | happ
      · left; exact hu
      · exact Or.inr (Or.inr (Or.inr (Or.inr (Or.inl happ))))
    · left; rfl
    · rcases stepF120_out_cases cp em mp st p with hu | happ
      · left; exact hu
      · exact Or.inr (Or.inr (Or.inr (Or.inr (Or.inr happ))))
    · left; rfl
    · left; rfl
    · left; rfl

/-- One correlator step either leaves the apportionment collection
unchanged or appends one (unconditional) M200 row. -/
theorem stepP_ap_cases (cp em : String) (mp mn : Dict) (st : ParseState)
    (p : List String) :
    (stepP cp em mp mn st p).records_ap_pis = st.records_ap_pis ∨
    (stepP cp em mp mn st p).records_ap_pis =
      st.records_ap_pis ++ [m200Row cp em p] := by
  by_cases h3 : p.length < 3
  · left
    rw [stepP_short cp em mp mn st p h3]
  · unfold stepP
    rw [if_neg h3]
    split
    · left; rfl
    · left; exact (stepC170_other cp em mp mn st p).2.1
    · left; rfl
    · left; exact (stepA170_other cp em mp st p).2.1
    · left; exact finalizeC500_ap cp em mp st
    · left; exact (stepC501_records st p).2.2.1
    · left; exact (stepC505_records st p).2.2.1
    · left; rfl
    · left; exact (stepD101_other cp em mp st p).2.1
    · left; exact (stepD105_other cp em mp st p).2.1
    · left; rfl
    · left; exact (stepF120_other cp em mp st p).2.1
    · right; rfl
    · left; rfl
    · left; rfl

/-- One correlator step either leaves the credit-declaration collection
unchanged or appends one (unconditional) M105 row. -/
theorem stepP_cred_cases (cp em : String) (mp mn : Dict) (st : ParseState)
    (p : List String) :
    (stepP cp em mp mn st p).records_cred_pis = st.records_cred_pis ∨
    (stepP cp em mp mn st p).records_cred_pis =
      st.records_cred_pis ++ [m105Row cp em p] := by
  by_cases h3 : p.length < 3
  · left
    rw [stepP_short cp em mp mn st p h3]
  · unfold stepP
    rw [if_neg h3]
    split
    · left; rfl
    · left; exact (stepC170_other cp em mp mn st p).2.2
    · left; rfl
    · left; exact (stepA170_other cp em mp st p).2.2
    · left; exact finalizeC500_cred cp em mp st
    · left; exact (stepC501_records st p).2.2.2
    · left; exact (stepC505_records st p).2.2.2
    · left; rfl
    · left; exact (stepD101_other cp em mp st p).2.2
    · left; exact (stepD105_other cp em mp st p).2.2
    · left; rfl
    · left; exact (stepF120_other cp em mp st p).2.2
    · left; rfl
    · right; rfl
    · left; rfl

/-- Row-level fact: the Credit Line row stores the header's direction
indicator under `IND_OPER`. -/
theorem c170Row_ind_oper (cp em : String) (mp mn : Dict) (h p : List String) :
    rowGet (c170Row cp em mp mn h p) "IND_OPER" = some (Value.str (pGet h 2)) := rfl

/-- An invariant preserved by every correlator step is preserved by the
whole scan. -/
theorem foldl_step_inv (cp em : String) (mp mn : Dict) (P : ParseState → Prop)
    (hstep : ∀ st line, P st → P (step cp em mp mn st line)) :
    ∀ (ls : List String) (st : ParseState),
      P st → P (List.foldl (step cp em mp mn) st ls) := by
  intro ls
  induction ls with
  | nil => intro st h; exact h
  | cons l rest ih => intro st h; exact ih _ (hstep st l h)

/-- One step preserves the inbound-only invariant of the Credit Line
collection. -/
theorem c1Inv_step (cp em : String) (mp mn : Dict) (st : ParseState) (line : String)
    (hP : ∀ r ∈ st.records_c100, rowGet r "IND_OPER" = some (Value.str "0")) :
    ∀ r ∈ (step cp em mp mn st line).records_c100,
      rowGet r "IND_OPER" = some (Value.str "0") := by
  intro r hr
  rw [step] at hr
  rcases stepP_c100_cases cp em mp mn st (splitLine line) with hu | ⟨h, _, hi, _, happ⟩
  · rw [hu] at hr
    exact hP r hr
  · rw [happ] at hr
    rcases List.mem_append.mp hr with h1 | h2
    · exact hP r h1
    · rw [List.mem_singleton.mp h2, c170Row_ind_oper, hi]

/-- C1, amended: every Credit Line is emitted from a header whose
operation-direction indicator (field 2 of the C100 record) is the inbound
code `"0"`; the parser gates on this indicator, not on the §4.7
leading-digit classifier, which maps the indicator `"0"` itself to
`"OUTROS"` (Unclassified). -/
theorem c1_amended (lines : List String) :
    (∀ r ∈ (parse_efd_piscofins lines).records_c100,
      rowGet r "IND_OPER" = some (Value.str "0")) ∧
    classificar_cfop "0" = "OUTROS" := by
  constructor
  · intro r hr
    have hr2 : r ∈ ((lines.foldl
        (step (_extract_0000_metadata lines).1 (_extract_0000_metadata lines).2
          (_build_maps lines).1 (_build_maps lines).2) initState)).records_c100 := by
      rw [← finalizeC500_c100 (_extract_0000_metadata lines).1
        (_extract_0000_metadata lines).2 (_build_maps lines).1]
      exact hr
    refine foldl_step_inv _ _ _ _
      (fun st => ∀ r ∈ st.records_c100, rowGet r "IND_OPER" = some (Value.str "0"))
      (fun st l hP => c1Inv_step _ _ _ _ st l hP) lines initState ?_ r hr2
    intro r hr
    cases hr
  · rfl

/-- C1, witness: the amended invariant evaluated on the concrete file of
the counterexample. -/
theorem c1_amended_witness :
    rowGet ((parse_efd_piscofins c1Lines).records_c100.getD 0 []) "IND_OPER"
      = some (Value.str "0") :=
  (c1_amended c1Lines).1 _ (by decide)

/-- A Credit Line row that passed its emission guard is non-zero. -/
theorem c170Row_nonZero (cp em : String) (mp mn : Dict) (h p : List String)
    (hz : ¬ (_to_float (pGet p 15) = 0 ∧ _to_float (pGet p 21) = 0 ∧
             _to_float (pGet p 13) = 0 ∧ _to_float (pGet p 19) = 0)) :
    rowNonZero (c170Row cp em mp mn h p) := by
  have h13 : fieldFloat (c170Row cp em mp mn h p) "VL_BC_PIS"
      = _to_float (pGet p 13) := rfl
  have h15 : fieldFloat (c170Row cp em mp mn h p) "VL_PIS"
      = _to_float (pGet p 15) := rfl
  have h19 : fieldFloat (c170Row cp em mp mn h p) "VL_BC_COFINS"
      = _to_float (pGet p 19) := rfl
  have h21 : fieldFloat (c170Row cp em mp mn h p) "VL_COFINS"
      = _to_float (pGet p 21) := rfl
  unfold rowNonZero
  rw [h13, h15, h19, h21]
  tauto

/-- A service row that passed its emission guard is non-zero. -/
theorem a170Row_nonZero (cp em : String) (mp : Dict) (h p : List String)
    (hz : ¬ (_to_float (pGet p 12) = 0 ∧ _to_float (pGet p 16) = 0 ∧
             _to_float (pGet p 10) = 0 ∧ _to_float (pGet p 14) = 0)) :
    rowNonZero (a170Row cp em mp h p) := by
  have h10 : fieldFloat (a170Row cp em mp h p) "VL_BC_PIS"
      = _to_float (pGet p 10) := rfl
  have h12 : fieldFloat (a170Row cp em mp h p) "VL_PIS"
      = _to_float (pGet p 12) := rfl
  have h14 : fieldFloat (a170Row cp em mp h p) "VL_BC_COFINS"
      = _to_float (pGet p 14) := rfl
  have h16 : fieldFloat (a170Row cp em mp h p) "VL_COFINS"
      = _to_float (pGet p 16) := rfl
  unfold rowNonZero
  rw [h10, h12, h14, h16]
  tauto

/-- A freight PIS row that passed its emission guard is non-zero. -/
theorem d101Row_nonZero (cp em : String) (mp : Dict) (h p : List String)
    (hz : ¬ (_to_float (pGet p 6) = 0 ∧ _to_float (pGet p 4) = 0)) :
    rowNonZero (d101Row cp em mp h p) := by
  have h4 : fieldFloat (d101Row cp em mp h p) "VL_BC_PIS"
      = _to_float (pGet p 4) := rfl
  have h6 : fieldFloat (d101Row cp em mp h p) "VL_PIS"
      = _to_float (pGet p 6) := rfl
  unfold rowNonZero
  rw [h4, h6]
  tauto

/-- A freight COFINS row that passed its emission guard is non-zero. -/
theorem d105Row_nonZero (cp em : String) (mp : Dict) (h p : List String)
    (hz : ¬ (_to_float (pGet p 6) = 0 ∧ _to_float (pGet p 4) = 0)) :
    rowNonZero (d105Row cp em mp h p) := by
  have h4 : fieldFloat (d105Row cp em mp h p) "VL_BC_COFINS"
      = _to_float (pGet p 4) := rfl
  have h6 : fieldFloat (d105Row cp em mp h p) "VL_COFINS"
      = _to_float (pGet p 6) := rfl
  unfold rowNonZero
  rw [h4, h6]
  tauto

/-- An other-document row that passed its emission guard is non-zero. -/
theorem f120Row_nonZero (cp em : String) (mp : Dict) (h p : List String)
    (hz : ¬ (_to_float (pGet p 11) = 0 ∧ _to_float (pGet p 15) = 0 ∧
             _to_float (pGet p 9) = 0 ∧ _to_float (pGet p 13) = 0)) :
    rowNonZero (f120Row cp em mp h p) := by
  have h9 : fieldFloat (f120Row cp em mp h p) "VL_BC_PIS"
      = _to_float (pGet p 9) := rfl
  have h11 : fieldFloat (f120Row cp em mp h p) "VL_PIS"
      = _to_float (pGet p 11) := rfl
  have h13 : fieldFloat (f120Row cp em mp h p) "VL_BC_COFINS"
      = _to_float (pGet p 13) := rfl
  have h15 : fieldFloat (f120Row cp em mp h p) "VL_COFINS"
      = _to_float (pGet p 15) := rfl
  unfold rowNonZero
  rw [h9, h11, h13, h15]
  tauto

/-- One step preserves the non-zero invariant of the Credit Line and
Other-Document collections. -/
theorem c2Inv_step (cp em : String) (mp mn : Dict) (st : ParseState) (line : String)
    (h1 : ∀ r ∈ st.records_c100, rowNonZero r)
    (h2 : ∀ r ∈ st.records_out, rowNonZero r ∨ utilityRowOk r) :
    (∀ r ∈ (step cp em mp mn st line).records_c100, rowNonZero r) ∧
    (∀ r ∈ (step cp em mp mn st line).records_out, rowNonZero r ∨ utilityRowOk r) := by
  constructor
  · intro r hr
    rw [step] at hr
    rcases stepP_c100_cases cp em mp mn st (splitLine line) with hu | ⟨h, _, _, hz, happ⟩
    · rw [hu] at hr
      exact h1 r hr
    · rw [happ] at hr
      rcases List.mem_append.mp hr with ha | hb
      · exact h1 r ha
      · rw [List.mem_singleton.mp hb]
        exact c170Row_nonZero cp em mp mn h _ hz
  · intro r hr
    rw [step] at hr
    rcases stepP_out_cases cp em mp mn st (splitLine line) with
      hu | ⟨h, _, hz, happ⟩ | ⟨hd, _, hz, happ⟩ | ⟨h, _, hz, happ⟩ |
      ⟨h, _, hz, happ⟩ | ⟨h, _, hz, happ⟩
    · rw [hu] at hr
      exact h2 r hr
    · rw [happ] at hr
      rcases List.mem_append.mp hr with ha | hb
      · exact h2 r ha
      · rw [List.mem_singleton.mp hb]
        exact Or.inl (a170Row_nonZero cp em mp h _ hz)
    · rw [happ] at hr
      rcases List.mem_append.mp hr with ha | hb
      · exact h2 r ha
      · rw [List.mem_singleton.mp hb]
        exact Or.inr ⟨cp, em, mp, hd, _, _, _, _, _, _, hz, rfl⟩
    · rw [happ] at hr
      rcases List.mem_append.mp hr with ha | hb
      · exact h2 r ha
      · rw [List.mem_singleton.mp hb]
        exact Or.inl (d101Row_nonZero cp em mp h _ hz)
    · rw [happ] at hr
      rcases List.mem_append.mp hr with ha | hb
      · exact h2 r ha
      · rw [List.mem_singleton.mp hb]
        exact Or.inl (d105Row_nonZero cp em mp h _ hz)
    · rw [happ] at hr
      rcases List.mem_append.mp hr with ha | hb
      · exact h2 r ha
      · rw [List.mem_singleton.mp hb]
        exact Or.inl (f120Row_nonZero cp em mp h _ hz)

/-- The non-zero invariant holds after the scan and final finalization,
for any metadata and reference maps. -/
theorem c2Inv_parse (cp em : String) (mp mn : Dict) (lines : List String) :
    (∀ r ∈ (finalizeC500 cp em mp
        (lines.foldl (step cp em mp mn) initState)).records_c100, rowNonZero r) ∧
    (∀ r ∈ (finalizeC500 cp em mp
        (lines.foldl (step cp em mp mn) initState)).records_out,
      rowNonZero r ∨ utilityRowOk r) := by
  have hfold := foldl_step_inv cp em mp mn
    (fun st => (∀ r ∈ st.records_c100, rowNonZero r) ∧
      (∀ r ∈ st.records_out, rowNonZero r ∨ utilityRowOk r))
    (fun st l hP => c2Inv_step cp em mp mn st l hP.1 hP.2) lines initState
    ⟨fun r hr => absurd hr (List.not_mem_nil r),
     fun r hr => absurd hr (List.not_mem_nil r)⟩
  constructor
  · intro r hr
    rw [finalizeC500_c100] at hr
    exact hfold.1 r hr
  · intro r hr
    rcases finalizeC500_out_cases cp em mp
        (lines.foldl (step cp em mp mn) initState) with hu | ⟨hd, _, hz, happ⟩
    · rw [hu] at hr
      exact hfold.2 r hr
    · rw [happ] at hr
      rcases List.mem_append.mp hr with ha | hb
      · exact hfold.2 r ha
      · rw [List.mem_singleton.mp hb]
        exact Or.inr ⟨cp, em, mp, hd, _, _, _, _, _, _, hz, rfl⟩

/-- C2, amended: every Credit Line row and every Other-Document row is
either non-zero in one of its four monetary fields or is a utility row
whose fields render (to two decimals) accumulated values that are not all
zero; the Period Apportionment (M200) and Credit Declaration (M105)
collections are emitted unconditionally, with no such filter. -/
theorem c2_amended (lines : List String) :
    (∀ r ∈ (parse_efd_piscofins lines).records_c100, rowNonZero r) ∧
    (∀ r ∈ (parse_efd_piscofins lines).records_out,
      rowNonZero r ∨ utilityRowOk r) :=
  c2Inv_parse (_extract_0000_metadata lines).1 (_extract_0000_metadata lines).2
    (_build_maps lines).1 (_build_maps lines).2 lines

/-- C2, witness: the amended invariant evaluated on a concrete emitted
service row. -/
theorem c2_amended_witness :
    rowNonZero ((parse_efd_piscofins c2wLines).records_out.getD 0 []) ∨
    utilityRowOk ((parse_efd_piscofins c2wLines).records_out.getD 0 []) :=
  (c2_amended c2wLines).2 _ (by decide)

/-- One step preserves the per-collection schema invariant. -/
theorem c9Inv_step (cp em : String) (mp mn : Dict) (st : ParseState) (line : String)
    (h1 : ∀ r ∈ st.records_c100, rowKeys r = c100Keys)
    (h2 : ∀ r ∈ st.records_out, rowKeys r = outKeys ∨ rowKeys r = f120Keys)
    (h3 : ∀ r ∈ st.records_ap_pis, rowKeys r = apKeys)
    (h4 : ∀ r ∈ st.records_cred_pis, rowKeys r = credKeys) :
    (∀ r ∈ (step cp em mp mn st line).records_c100, rowKeys r = c100Keys) ∧
    (∀ r ∈ (step cp em mp mn st line).records_out,
      rowKeys r = outKeys ∨ rowKeys r = f120Keys) ∧
    (∀ r ∈ (step cp em mp mn st line).records_ap_pis, rowKeys r = apKeys) ∧
    (∀ r ∈ (step cp em mp mn st line).records_cred_pis, rowKeys r = credKeys) := by
  refine ⟨?_, ?_, ?_, ?_⟩
  · intro r hr
    rw [step] at hr
    rcases stepP_c100_cases cp em mp mn st (splitLine line) with hu | ⟨h, _, _, _, happ⟩
    · rw [hu] at hr
      exact h1 r hr
    · rw [happ] at hr
      rcases List.mem_append.mp hr with ha | hb
      · exact h1 r ha
      · rw [List.mem_singleton.mp hb]
        rfl
  · intro r hr
    rw [step] at hr
    rcases stepP_out_cases cp em mp mn st (splitLine line) with
      hu | ⟨h, _, _, happ⟩ | ⟨hd, _, _, happ⟩ | ⟨h, _, _, happ⟩ |
      ⟨h, _, _, happ⟩ | ⟨h, _, _, happ⟩
    · rw [hu] at hr
      exact h2 r hr
    · rw [happ] at hr
      rcases List.mem_append.mp hr with ha | hb
      · exact h2 r ha
      · rw [List.mem_singleton.mp hb]
        exact Or.inl rfl
    · rw [happ] at hr
      rcases List.mem_append.mp hr with ha | hb
      · exact h2 r ha
      · rw [List.mem_singleton.mp hb]
        exact Or.inl rfl
    · rw [happ] at hr
      rcases List.mem_append.mp hr with ha | hb
      · exact h2 r ha
      · rw [List.mem_singleton.mp hb]
        exact Or.inl rfl
    · rw [happ] at hr
      rcases List.mem_append.mp hr with ha | hb
      · exact h2 r ha
      · rw [List.mem_singleton.mp hb]
        exact Or.inl rfl
    · rw [happ] at hr
      rcases List.mem_append.mp hr with ha | hb
      · exact h2 r ha
      · rw [List.mem_singleton.mp hb]
        exact Or.inr rfl
  · intro r hr
    rw [step] at hr
    rcases stepP_ap_cases cp em mp mn st (splitLine line) with hu | happ
    · rw [hu] at hr
      exact h3 r hr
    · rw [happ] at hr
      rcases List.mem_append.mp hr with ha | hb
      · exact h3 r ha
      · rw [List.mem_singleton.mp hb]
        rfl
  · intro r hr
    rw [step] at hr
    rcases stepP_cred_cases cp em mp mn st (splitLine line) with hu | happ
    · rw [hu] at hr
      exact h4 r hr
    · rw [happ] at hr
      rcases List.mem_append.mp hr with ha | hb
      · exact h4 r ha
      · rw [List.mem_singleton.mp hb]
        rfl

/-- The schema invariant holds after the scan and final finalization, for
any metadata and reference maps. -/
theorem c9Inv_parse (cp em : String) (mp mn : Dict) (lines : List String) :
    (∀ r ∈ (finalizeC500 cp em mp
        (lines.foldl (step cp em mp mn) initState)).records_c100,
      rowKeys r = c100Keys) ∧
    (∀ r ∈ (finalizeC500 cp em mp
        (lines.foldl (step cp em mp mn) initState)).records_out,
      rowKeys r = outKeys ∨ rowKeys r = f120Keys) ∧
    (∀ r ∈ (finalizeC500 cp em mp
        (lines.foldl (step cp em mp mn) initState)).records_ap_pis,
      rowKeys r = apKeys) ∧
    (∀ r ∈ (finalizeC500 cp em mp
        (lines.foldl (step cp em mp mn) initState)).records_cred_pis,
      rowKeys r = credKeys) := by
  have hfold := foldl_step_inv cp em mp mn
    (fun st => (∀ r ∈ st.records_c100, rowKeys r = c100Keys) ∧
      (∀ r ∈ st.records_out, rowKeys r = outKeys ∨ rowKeys r = f120Keys) ∧
      (∀ r ∈ st.records_ap_pis, rowKeys r = apKeys) ∧
      (∀ r ∈ st.records_cred_pis, rowKeys r = credKeys))
    (fun st l hP => c9Inv_step cp em mp mn st l hP.1 hP.2.1 hP.2.2.1 hP.2.2.2)
    lines initState
    ⟨fun r hr => absurd hr (List.not_mem_nil r),
     fun r hr => absurd hr (List.not_mem_nil r),
     fun r hr => absurd hr (List.not_mem_nil r),
     fun r hr => absurd hr (List.not_mem_nil r)⟩
  refine ⟨?_, ?_, ?_, ?_⟩
  · intro r hr
    rw [finalizeC500_c100] at hr
    exact hfold.1 r hr
  · intro r hr
    rcases finalizeC500_out_cases cp em mp
        (lines.foldl (step cp em mp mn) initState) with hu | ⟨hd, _, _, happ⟩
    · rw [hu] at hr
      exact hfold.2.1 r hr
    · rw [happ] at hr
      rcases List.mem_append.mp hr with ha | hb
      · exact hfold.2.1 r ha
      · rw [List.mem_singleton.mp hb]
        exact Or.inl rfl
  · intro r hr
    rw [finalizeC500_ap] at hr
    exact hfold.2.2.1 r hr
  · intro r hr
    rw [finalizeC500_cred] at hr
    exact hfold.2.2.2 r hr

/-- C9, amended: field presence is schema-stable within the Credit Line,
Apportionment and Credit Declaration collections; within the
Other-Document collection the service, utility and freight rows share one
field set (with `CFOP`), while other-document (F100/F120) rows carry the
same fields except `CFOP`. -/
theorem c9_amended (lines : List String) :
    (∀ r ∈ (parse_efd_piscofins lines).records_c100, rowKeys r = c100Keys) ∧
    (∀ r ∈ (parse_efd_piscofins lines).records_out,
      rowKeys r = outKeys ∨ rowKeys r = f120Keys) ∧
    (∀ r ∈ (parse_efd_piscofins lines).records_ap_pis, rowKeys r = apKeys) ∧
    (∀ r ∈ (parse_efd_piscofins lines).records_cred_pis, rowKeys r = credKeys) :=
  c9Inv_parse (_extract_0000_metadata lines).1 (_extract_0000_metadata lines).2
    (_build_maps lines).1 (_build_maps lines).2 lines

/-- C9, witness: the amended schema invariant evaluated on the concrete
mixed service/other-document file. -/
theorem c9_amended_witness :
    rowKeys ((parse_efd_piscofins c9Lines).records_out.getD 1 []) = outKeys ∨
    rowKeys ((parse_efd_piscofins c9Lines).records_out.getD 1 []) = f120Keys :=
  (c9_amended c9Lines).2.1 _ (by decide)
